import Mathlib

/-!
Shallow embedding of the synchronization / scheduling core of
the gst-plugins-base component `GstBaseTextOverlay` (ext/pango/gstbasetextoverlay.c):
the text-pad chain function (PendingSlot push), the video-pad chain
function (FrameScheduler decision loop), the flush / EOS event handlers,
the render cache (`need_render` dirty flag) and the placement computation
`gst_base_text_overlay_get_pos`.

GStreamer clock times are unsigned 64-bit integers with
`GST_CLOCK_TIME_NONE = 2^64 - 1` denoting "invalid"; they are modelled as
`Nat` with explicit wrap-around on addition.  The GStreamer core helpers
`gst_segment_clip`, `gst_segment_to_running_time` and `gst_segment_init`
are an external library dependency (not part of this repository); they
are modelled below from their documented semantics (TIME format, rate 1).
Blocking condition-variable waits are modelled by passing the list of
shared-state snapshots observed at successive wake-ups.
-/

namespace GstTextOverlay

/-- `GST_CLOCK_TIME_NONE`: all-ones 64-bit value, "invalid timestamp". -/
def NONE : Nat := 18446744073709551615

/-- guint64 wrap-around for sums of clock times. -/
def u64 (n : Nat) : Nat := n % 18446744073709551616

/-- `GstFormat`, reduced to the cases the overlay distinguishes. -/
inductive GstFormat where
  | undefinedF
  | timeF
  | bytesF
deriving DecidableEq

/-- `GstSegment` (TIME format, rate 1): the fields the overlay reads. -/
structure Segment where
  format : GstFormat
  start : Nat
  stop : Nat
  position : Nat
  base : Nat
deriving DecidableEq

/-- Models the GStreamer core function `gst_segment_init`: start 0, stop NONE,
position 0, base 0, with the given format. -/
def gst_segment_init (f : GstFormat) : Segment :=
  { format := f, start := 0, stop := NONE, position := 0, base := 0 }

/-- Models the GStreamer core function `gst_segment_clip` for TIME format:
returns `none` when `[start, stop)` lies completely outside the segment,
otherwise the endpoints clipped to the segment (a `start` or `stop`
equal to `NONE` means "unset"). -/
def gst_segment_clip (seg : Segment) (start stop : Nat) : Option (Nat × Nat) :=
  if seg.stop ≠ NONE ∧ start ≠ NONE ∧ seg.stop ≤ start then none
  else if stop ≠ NONE ∧ (stop < seg.start ∨ (start ≠ stop ∧ stop = seg.start)) then none
  else
    let cs := if start = NONE then NONE else max start seg.start
    let ct := if stop = NONE then seg.stop else min stop seg.stop
    some (cs, ct)

/-- Models the GStreamer core function `gst_segment_to_running_time` for TIME format
at rate 1: `NONE` for an invalid position or one outside the segment,
otherwise `position - start + base`. -/
def gst_segment_to_running_time (seg : Segment) (position : Nat) : Nat :=
  if seg.format ≠ GstFormat.timeF then NONE
  else if position = NONE then NONE
  else if position < seg.start then NONE
  else if seg.stop ≠ NONE ∧ seg.stop < position then NONE
  else position - seg.start + seg.base

/-- A `GstBuffer` as the overlay sees it: timestamp and duration
(`NONE` when the corresponding validity flag is unset) plus the payload
bytes, modelled as a string. -/
structure GstBuffer where
  timestamp : Nat
  duration : Nat
  payload : String
deriving DecidableEq

/-- `GstBaseTextOverlayHAlign`. -/
inductive HAlign where
  | left
  | center
  | right
  | pos
deriving DecidableEq

/-- `GstBaseTextOverlayVAlign`. -/
inductive VAlign where
  | baseline
  | bottom
  | top
  | pos
  | center
deriving DecidableEq

/-- The shared state of a `GstBaseTextOverlay` instance: the sync flags,
the single-item pending slot (`text_buffer`), both segments, the dirty
flag (`need_render`), the render cache and the configuration fields read
by `gst_base_text_overlay_get_pos` / `_set_property`.  All of it is
guarded by the one object lock in the C code. -/
structure OverlayState where
  video_flushing : Bool
  video_eos : Bool
  text_flushing : Bool
  text_eos : Bool
  silent : Bool
  text_linked : Bool
  wait_text : Bool
  have_pango_markup : Bool
  need_render : Bool
  text_buffer : Option GstBuffer
  segment : Segment
  text_segment : Segment
  default_text : String
  rendered : Option String
  fps_n : Nat
  fps_d : Nat
  width : Int
  height : Int
  image_width : Int
  image_height : Int
  xpad : Int
  ypad : Int
  deltax : Int
  deltay : Int
  xpos : Rat
  ypos : Rat
  halign : HAlign
  valign : VAlign
  use_vertical_render : Bool
  want_shading : Bool
  color : Nat
  outline_color : Nat
  shading_value : Nat
  wrap_mode : Nat
  line_align : Nat
  auto_adjust_size : Bool
  font_desc : String
deriving DecidableEq

/-- `GST_BUFFER_TIMESTAMP_IS_VALID && GST_BUFFER_DURATION_IS_VALID`,
the `valid_text_time` flag of the video chain. -/
def valid_text_time (b : GstBuffer) : Prop :=
  b.timestamp ≠ NONE ∧ b.duration ≠ NONE

instance (b : GstBuffer) : Decidable (valid_text_time b) :=
  inferInstanceAs (Decidable (b.timestamp ≠ NONE ∧ b.duration ≠ NONE))

/-- `gst_base_text_overlay_pop_text`: clear the pending slot (and, in the
C code, broadcast the condition variable to wake a blocked producer). -/
def gst_base_text_overlay_pop_text (s : OverlayState) : OverlayState :=
  { s with text_buffer := none }

/-! ### Events (`gst_base_text_overlay_text_event` / `_video_event`) -/

/-- The control events handled on the text (secondary) pad. -/
inductive TextEventK where
  | segmentE (seg : Segment)
  | gapE (start duration : Nat)
  | flushStartE
  | flushStopE
  | eosE

/-- The control events handled on the video (primary) pad. -/
inductive VideoEventK where
  | segmentE (seg : Segment)
  | eosE
  | flushStartE
  | flushStopE

/-- `gst_base_text_overlay_text_event` on the state it mutates; the
returned `Bool` records whether the handler broadcast the condition
variable (flush-stop broadcasts via `gst_base_text_overlay_pop_text`). -/
def gst_base_text_overlay_text_event (s : OverlayState) (e : TextEventK) :
    OverlayState × Bool :=
  match e with
  | .segmentE seg =>
    let s1 := { s with text_eos := false }
    let s2 := if seg.format = GstFormat.timeF then { s1 with text_segment := seg } else s1
    (s2, true)
  | .gapE start duration =>
    let p := if duration ≠ NONE then u64 (start + duration) else start
    ({ s with text_segment := { s.text_segment with position := p } }, true)
  | .flushStartE => ({ s with text_flushing := true }, true)
  | .flushStopE =>
    ({ s with
        text_flushing := false
        text_eos := false
        text_buffer := none
        text_segment := gst_segment_init GstFormat.timeF }, true)
  | .eosE => ({ s with text_eos := true }, true)

/-- `gst_base_text_overlay_video_event`; the returned `Bool` records
whether the handler broadcast the condition variable. -/
def gst_base_text_overlay_video_event (s : OverlayState) (e : VideoEventK) :
    OverlayState × Bool :=
  match e with
  | .segmentE seg =>
    (if seg.format = GstFormat.timeF then { s with segment := seg } else s, false)
  | .eosE => ({ s with video_eos := true }, false)
  | .flushStartE => ({ s with video_flushing := true }, true)
  | .flushStopE =>
    ({ s with
        video_flushing := false
        video_eos := false
        segment := gst_segment_init GstFormat.timeF }, false)

/-! ### Render cache (`gst_base_text_overlay_render_text`) -/

/-- `g_strdelimit` mapping CR and TAB to a space, character-wise. -/
def g_strdelimit_char (c : Char) : Char :=
  if c = Char.ofNat 13 ∨ c = Char.ofNat 9 then Char.ofNat 32 else c

/-- `gst_base_text_overlay_render_text`: returns early when the dirty
flag `need_render` is clear; otherwise truncates the text to `textlen`
bytes (`-1` meaning the whole string), maps CR and TAB to spaces, hands
the string to the external rasterizer (`render_pangocairo`, modelled as
replacing the cached image) and clears the dirty flag.  The returned
`Bool` records whether the rasterizer was invoked. -/
def gst_base_text_overlay_render_text (s : OverlayState) (text : String)
    (textlen : Int) : OverlayState × Bool :=
  if s.need_render = false then (s, false)
  else
    let len : Nat := if textlen < 0 then text.length else min textlen.toNat text.length
    let string := String.mk ((text.toList.take len).map g_strdelimit_char)
    ({ s with need_render := false, rendered := some string }, true)

/-! ### PendingSlot push (`gst_base_text_overlay_text_chain`) -/

/-- Outcome of one run of the producer and its `while (text_buffer != NULL)`
wait loop, given the snapshots of the shared state observed at
successive wake-ups: the loop exits with the slot observed empty,
returns early because a wake-up revealed `text_flushing`, or is still
blocked when the snapshot list runs out. -/
inductive WaitOutcome where
  | free (s : OverlayState)
  | flushed (s : OverlayState)
  | blockedW
deriving DecidableEq

/-- The wait loop of the producer: check the slot; while occupied, wait, and
after each wake-up first re-check the flushing flag, then the slot. -/
def text_wait_loop : OverlayState → List OverlayState → WaitOutcome
  | s, [] => if s.text_buffer = none then .free s else .blockedW
  | s, w :: rest =>
    if s.text_buffer = none then .free s
    else if w.text_flushing then .flushed w
    else text_wait_loop w rest

/-- Result of `gst_base_text_overlay_text_chain`: flow return plus the
resulting shared state (`blockedT` when the producer is still waiting). -/
inductive TextChainOut where
  | flushingT (s : OverlayState)
  | eosT (s : OverlayState)
  | okDiscard (s : OverlayState)
  | okStored (s : OverlayState) (stored : GstBuffer)
  | blockedT
deriving DecidableEq

/-- The in-segment test of the text chain: a buffer with an invalid
timestamp is unconditionally treated as in-segment with
`clip_start = clip_stop = 0` (their initial values); otherwise
`gst_segment_clip` decides, with `stop = NONE` when the duration is
invalid. -/
def text_clip (seg : Segment) (b : GstBuffer) : Option (Nat × Nat) :=
  if b.timestamp ≠ NONE then
    gst_segment_clip seg b.timestamp
      (if b.duration ≠ NONE then u64 (b.timestamp + b.duration) else NONE)
  else some (0, 0)

/-- The stamp rewrite of an in-segment text buffer (lines 2206-2210):
a valid timestamp is replaced by `clip_start`; otherwise (only then) a
valid duration is replaced by `clip_stop - clip_start`. -/
def clipped_text_buffer (b : GstBuffer) (clip_start clip_stop : Nat) : GstBuffer :=
  if b.timestamp ≠ NONE then { b with timestamp := clip_start }
  else if b.duration ≠ NONE then { b with duration := clip_stop - clip_start }
  else b

/-- The store step of the text chain once the slot was observed empty:
update the text segment position (the timestamp check is on the
already-rewritten buffer), store the buffer, set the dirty flag. -/
def store_text_buffer (s2 : OverlayState) (b1 : GstBuffer) (clip_start : Nat) :
    OverlayState :=
  { s2 with
    text_segment :=
      if b1.timestamp ≠ NONE then
        { s2.text_segment with position := clip_start }
      else s2.text_segment,
    text_buffer := some b1,
    need_render := true }

/-- `gst_base_text_overlay_text_chain`: the PendingSlot push.  Fails
with FLUSHING / EOS on the corresponding flags; discards an
out-of-segment buffer; otherwise rewrites the stamps, waits for the slot
to empty (re-checking `text_flushing` after each wake-up), stores the
buffer, updates the text segment position, sets the dirty flag and
broadcasts.  The returned `Bool` records the broadcast of line 2235. -/
def gst_base_text_overlay_text_chain (s : OverlayState) (buffer : GstBuffer)
    (wakes : List OverlayState) : TextChainOut × Bool :=
  if s.text_flushing then (.flushingT s, false)
  else if s.text_eos then (.eosT s, false)
  else
    match text_clip s.text_segment buffer with
    | none => (.okDiscard s, false)
    | some (clip_start, clip_stop) =>
      match text_wait_loop s wakes with
      | .flushed s2 => (.flushingT s2, false)
      | .blockedW => (.blockedT, false)
      | .free s2 =>
        (.okStored
          (store_text_buffer s2 (clipped_text_buffer buffer clip_start clip_stop) clip_start)
          (clipped_text_buffer buffer clip_start clip_stop), true)

/-! ### FrameScheduler (`gst_base_text_overlay_video_chain`) -/

/-- `g_markup_escape_text`, character-wise (the payload, being a Lean
`String`, is always valid UTF-8, so the invalid-UTF-8 sanitizing branch
of the C code is unreachable in this model). -/
def g_markup_escape_char (c : Char) : String :=
  if c = Char.ofNat 38 then String.mk [Char.ofNat 38, Char.ofNat 97, Char.ofNat 109, Char.ofNat 112, Char.ofNat 59]
  else if c = Char.ofNat 60 then String.mk [Char.ofNat 38, Char.ofNat 108, Char.ofNat 116, Char.ofNat 59]
  else if c = Char.ofNat 62 then String.mk [Char.ofNat 38, Char.ofNat 103, Char.ofNat 116, Char.ofNat 59]
  else if c = Char.ofNat 39 then String.mk [Char.ofNat 38, Char.ofNat 97, Char.ofNat 112, Char.ofNat 111, Char.ofNat 115, Char.ofNat 59]
  else if c = Char.ofNat 34 then String.mk [Char.ofNat 38, Char.ofNat 113, Char.ofNat 117, Char.ofNat 111, Char.ofNat 116, Char.ofNat 59]
  else String.mk [c]

/-- `g_markup_escape_text` over a whole payload. -/
def g_markup_escape_text (t : String) : String :=
  String.join (t.toList.map g_markup_escape_char)

/-- The trailing-newline strip (`while` loop over trailing LF and CR bytes) of the video chain: the length rendered. -/
def strip_trailing_newlines_len (t : String) : Nat :=
  (t.toList.reverse.dropWhile fun c => c = Char.ofNat 10 ∨ c = Char.ofNat 13).length

/-- The text extraction of the overlap branch and render call (video chain
lines mapping the pending text buffer): non-empty payload is escaped
unless it is pre-marked-up, stripped of trailing newlines and rendered;
an empty payload (or one escaping to the empty string) renders a single
space. -/
def render_from_text_buffer (s : OverlayState) (tb : GstBuffer) : OverlayState :=
  if tb.payload.length > 0 then
    let text := if s.have_pango_markup then tb.payload else g_markup_escape_text tb.payload
    if text ≠ "" then
      (gst_base_text_overlay_render_text s text
        (Int.ofNat (strip_trailing_newlines_len text))).1
    else (gst_base_text_overlay_render_text s " " 1).1
  else (gst_base_text_overlay_render_text s " " 1).1

/-- The `wait_for_text_buf` flag computed when the text pad is linked
but the slot is empty: start at TRUE, forced FALSE by `text_eos`, by a
disabled `wait_text` property, and by the text segment (in TIME format)
having a start or position whose running time is known to exceed the
running time of the (clipped) timestamp of the video buffer. -/
def video_wait_for_text (s : OverlayState) (buffer : GstBuffer) : Prop :=
  s.text_eos = false ∧ s.wait_text = true ∧
  ¬ (s.text_segment.format = GstFormat.timeF ∧
     ((gst_segment_to_running_time s.text_segment s.text_segment.start ≠ NONE ∧
       gst_segment_to_running_time s.segment buffer.timestamp <
         gst_segment_to_running_time s.text_segment s.text_segment.start) ∨
      (gst_segment_to_running_time s.text_segment s.text_segment.position ≠ NONE ∧
       gst_segment_to_running_time s.segment buffer.timestamp <
         gst_segment_to_running_time s.text_segment s.text_segment.position)))

instance (s : OverlayState) (buffer : GstBuffer) :
    Decidable (video_wait_for_text s buffer) :=
  inferInstanceAs (Decidable (_ ∧ _ ∧ _))

/-- `overlay->segment.position = clip_start`, the position update done
on the paths that leave the scheduling loop by emitting a frame. -/
def set_position (s : OverlayState) (p : Nat) : OverlayState :=
  { s with segment := { s.segment with position := p } }

/-- Result of one iteration of the `wait_for_text_buf` loop of the video chain
loop: return FLUSHING / EOS, emit the video buffer unmodified
(`gst_pad_push`), emit it composited with the rendered text
(`gst_base_text_overlay_push_frame`), pop a stale text buffer and
retry against the same video buffer (`goto wait_for_text_buf`), or
block on the condition variable and re-enter the loop on wake-up. -/
inductive VideoStep where
  | flushingV
  | eosV
  | emitted (s : OverlayState)
  | composited (s : OverlayState)
  | retryStale (s : OverlayState)
  | waitText (s : OverlayState)
deriving DecidableEq

/-- One iteration of the `wait_for_text_buf` loop of
`gst_base_text_overlay_video_chain`, from the label to the next return, retry or
suspension.  `start`/`stop` are the running-interval endpoints computed
before the loop (`stop` after the duration estimate), `clip_start` the
clipped timestamp used for the position update, `buffer` the (possibly
stamp-rewritten) video buffer. -/
def gst_base_text_overlay_video_chain_step (s : OverlayState)
    (buffer : GstBuffer) (start stop clip_start : Nat) : VideoStep :=
  if s.video_flushing then .flushingV
  else if s.video_eos then .eosV
  else if s.silent then .emitted (set_position s clip_start)
  else if s.text_linked = false then
    if s.default_text ≠ "" then
      .composited (set_position
        (gst_base_text_overlay_render_text s s.default_text (-1)).1 clip_start)
    else .emitted (set_position s clip_start)
  else
    match s.text_buffer with
    | some tb =>
      let vid_running_time := gst_segment_to_running_time s.segment start
      let vid_running_time_end := gst_segment_to_running_time s.segment stop
      let text_running_time :=
        if valid_text_time tb then
          gst_segment_to_running_time s.text_segment tb.timestamp
        else NONE
      let text_running_time_end :=
        if valid_text_time tb then
          gst_segment_to_running_time s.text_segment (u64 (tb.timestamp + tb.duration))
        else NONE
      if valid_text_time tb ∧ text_running_time_end ≤ vid_running_time then
        .retryStale (gst_base_text_overlay_pop_text s)
      else if valid_text_time tb ∧ vid_running_time_end ≤ text_running_time then
        .emitted (set_position s clip_start)
      else
        let s1 := render_from_text_buffer s tb
        let s2 :=
          if (¬ valid_text_time tb) ∨
             (valid_text_time tb ∧ text_running_time_end ≤ vid_running_time_end) then
            gst_base_text_overlay_pop_text s1
          else s1
        .composited (set_position s2 clip_start)
    | none =>
      if video_wait_for_text s buffer then .waitText s
      else .emitted (set_position s clip_start)

/-- Result of the pre-loop section of the video chain (timestamp check,
segment clipping, duration estimate). -/
inductive VideoPrelude where
  | droppedNoTimestamp
  | droppedOutOfSegment
  | proceed (buffer : GstBuffer) (start stop clip_start : Nat)
deriving DecidableEq

/-- The video chain before the loop: drop a buffer without timestamp,
drop one outside the segment, otherwise clip the stamps to the segment
and estimate a stop time when the duration is unset (from the frame
rate, else `start + 1`). -/
def gst_base_text_overlay_video_chain_prelude (s : OverlayState)
    (b : GstBuffer) : VideoPrelude :=
  if b.timestamp = NONE then .droppedNoTimestamp
  else
    let start := b.timestamp
    let stop := if b.duration = NONE then NONE else u64 (b.timestamp + b.duration)
    if stop = NONE ∧ start < s.segment.start then .droppedOutOfSegment
    else
      match gst_segment_clip s.segment start stop with
      | none => .droppedOutOfSegment
      | some (cs, ct) =>
        let b1 :=
          if cs ≠ start ∨ (stop ≠ NONE ∧ ct ≠ stop) then
            { b with
                timestamp := cs
                duration := if stop ≠ NONE then ct - cs else b.duration }
          else b
        let stop2 :=
          if stop = NONE then
            if s.fps_n ≠ 0 ∧ s.fps_d ≠ 0 then
              u64 (start + 1000000000 * s.fps_d / s.fps_n)
            else u64 (start + 1)
          else stop
        .proceed b1 start stop2 cs

/-! ### Placement (`gst_base_text_overlay_get_pos`) -/

/-- The GLib macro `CLAMP (x, low, high)`. -/
def cCLAMP (x lo hi : Int) : Int :=
  if x > hi then hi else if x < lo then lo else x

/-- The C cast `(gint) d` for a double `d` (modelled as a rational):
truncation toward zero. -/
def truncD (q : Rat) : Int := Int.tdiv q.num (Int.ofNat q.den)

/-- The horizontal switch of `gst_base_text_overlay_get_pos`, before
the `deltax` offset is added: only the positional mode clamps. -/
def get_pos_x (s : OverlayState) : Int :=
  match (if s.use_vertical_render then HAlign.right else s.halign) with
  | .left => s.xpad
  | .center => Int.tdiv (s.width - s.image_width) 2
  | .right => s.width - s.image_width - s.xpad
  | .pos =>
    let x0 := truncD ((s.width : Rat) * s.xpos) - Int.tdiv s.image_width 2
    let x1 := cCLAMP x0 0 (s.width - s.image_width)
    if x1 < 0 then 0 else x1

/-- The vertical switch of `gst_base_text_overlay_get_pos`, before the
`deltay` offset is added: only the positional mode clamps. -/
def get_pos_y (s : OverlayState) : Int :=
  match (if s.use_vertical_render then VAlign.top else s.valign) with
  | .bottom => s.height - s.image_height - s.ypad
  | .baseline => s.height - (s.image_height + s.ypad)
  | .top => s.ypad
  | .pos =>
    let y0 := truncD ((s.height : Rat) * s.ypos) - Int.tdiv s.image_height 2
    cCLAMP y0 0 (s.height - s.image_height)
  | .center => Int.tdiv (s.height - s.image_height) 2

/-- `gst_base_text_overlay_get_pos`: the per-axis switch, then the
delta offset. -/
def gst_base_text_overlay_get_pos (s : OverlayState) : Int × Int :=
  (get_pos_x s + s.deltax, get_pos_y s + s.deltay)

/-! ### Properties (`gst_base_text_overlay_set_property`) -/

/-- The writable properties of `GstBaseTextOverlay`, with their values. -/
inductive GstProp where
  | textP (v : String)
  | shadingP (v : Bool)
  | xpadP (v : Int)
  | ypadP (v : Int)
  | deltaxP (v : Int)
  | deltayP (v : Int)
  | xposP (v : Rat)
  | yposP (v : Rat)
  | valignmentP (v : VAlign)
  | halignmentP (v : HAlign)
  | wrapModeP (v : Nat)
  | fontDescP (v : String)
  | colorP (v : Nat)
  | outlineColorP (v : Nat)
  | silentP (v : Bool)
  | lineAlignmentP (v : Nat)
  | waitTextP (v : Bool)
  | autoAdjustSizeP (v : Bool)
  | verticalRenderP (v : Bool)
  | shadingValueP (v : Nat)

/-- `gst_base_text_overlay_set_property`: update the addressed field,
then unconditionally set the dirty flag (`overlay->need_render = TRUE`
after the switch, line 941). -/
def gst_base_text_overlay_set_property (s : OverlayState) (p : GstProp) :
    OverlayState :=
  let s1 :=
    match p with
    | .textP v => { s with default_text := v }
    | .shadingP v => { s with want_shading := v }
    | .xpadP v => { s with xpad := v }
    | .ypadP v => { s with ypad := v }
    | .deltaxP v => { s with deltax := v }
    | .deltayP v => { s with deltay := v }
    | .xposP v => { s with xpos := v }
    | .yposP v => { s with ypos := v }
    | .valignmentP v => { s with valign := v }
    | .halignmentP v => { s with halign := v }
    | .wrapModeP v => { s with wrap_mode := v }
    | .fontDescP v => { s with font_desc := v }
    | .colorP v => { s with color := v }
    | .outlineColorP v => { s with outline_color := v }
    | .silentP v => { s with silent := v }
    | .lineAlignmentP v => { s with line_align := v }
    | .waitTextP v => { s with wait_text := v }
    | .autoAdjustSizeP v => { s with auto_adjust_size := v }
    | .verticalRenderP v => { s with use_vertical_render := v }
    | .shadingValueP v => { s with shading_value := v }
  { s1 with need_render := true }

/-! ### Projections used to state the claims -/

/-- The pending-slot contents of the state carried by a `VideoStep`
result (`none` for the stateless FLUSHING / EOS returns). -/
def stepSlot : VideoStep → Option (Option GstBuffer)
  | .emitted s => some s.text_buffer
  | .composited s => some s.text_buffer
  | .retryStale s => some s.text_buffer
  | .waitText s => some s.text_buffer
  | .flushingV => none
  | .eosV => none

/-- Whether a `VideoStep` result emitted a composited frame. -/
def isCompositedB : VideoStep → Bool
  | .composited _ => true
  | _ => false

/-- The buffer stored by a text-chain run, when one was stored. -/
def chainStored : TextChainOut → Option GstBuffer
  | .okStored _ b => some b
  | _ => none

/-! ### Helper lemmas -/

lemma render_text_fst_text_buffer (s : OverlayState) (t : String) (l : Int) :
    ((gst_base_text_overlay_render_text s t l).1).text_buffer = s.text_buffer := by
  unfold gst_base_text_overlay_render_text
  split <;> rfl

lemma render_from_text_buffer_text_buffer (s : OverlayState) (tb : GstBuffer) :
    (render_from_text_buffer s tb).text_buffer = s.text_buffer := by
  unfold render_from_text_buffer
  split
  · split
    · dsimp only
      split
      · exact render_text_fst_text_buffer ..
      · exact render_text_fst_text_buffer ..
    · dsimp only
      split
      · exact render_text_fst_text_buffer ..
      · exact render_text_fst_text_buffer ..
  · exact render_text_fst_text_buffer ..

lemma set_position_text_buffer (s : OverlayState) (p : Nat) :
    (set_position s p).text_buffer = s.text_buffer := rfl

lemma text_wait_loop_free {s s2 : OverlayState} {wakes : List OverlayState}
    (h : text_wait_loop s wakes = .free s2) : s2.text_buffer = none := by
  induction wakes generalizing s with
  | nil =>
    unfold text_wait_loop at h
    split at h
    · cases h; assumption
    · cases h
  | cons w rest ih =>
    unfold text_wait_loop at h
    split at h
    · cases h; assumption
    · split at h
      · cases h
      · exact ih h

lemma text_chain_okStored_inv {s : OverlayState} {b : GstBuffer}
    {wakes : List OverlayState} {s3 : OverlayState} {b1 : GstBuffer}
    (h : (gst_base_text_overlay_text_chain s b wakes).1 = .okStored s3 b1) :
    s.text_flushing = false ∧ s.text_eos = false ∧
    ∃ s2 cs ct, text_clip s.text_segment b = some (cs, ct) ∧
      text_wait_loop s wakes = .free s2 ∧
      b1 = clipped_text_buffer b cs ct ∧
      s3 = store_text_buffer s2 b1 cs ∧
      (gst_base_text_overlay_text_chain s b wakes).2 = true := by
  unfold gst_base_text_overlay_text_chain at h ⊢
  split at h
  · cases h
  · rename_i hfl
    split at h
    · cases h
    · rename_i heos
      split at h
      · cases h
      · rename_i x cs ct hclip
        split at h
        · cases h
        · cases h
        · rename_i y s2 hloop
          injection h with h1 h2
          subst h2
          simp only [Bool.not_eq_true] at hfl heos
          refine ⟨hfl, heos, s2, cs, ct, hclip, hloop, rfl, h1.symm, ?_⟩
          simp [hfl, heos, hclip, hloop]

/-- A concrete overlay state (segments freshly initialized in TIME
format, no flags set, text pad linked, slot empty) used as the base of
the concrete states in the witnesses and counterexamples below. -/
def sBase : OverlayState where
  video_flushing := false
  video_eos := false
  text_flushing := false
  text_eos := false
  silent := false
  text_linked := true
  wait_text := true
  have_pango_markup := false
  need_render := true
  text_buffer := none
  segment := gst_segment_init GstFormat.timeF
  text_segment := gst_segment_init GstFormat.timeF
  default_text := ""
  rendered := none
  fps_n := 0
  fps_d := 0
  width := 100
  height := 100
  image_width := 50
  image_height := 50
  xpad := 0
  ypad := 0
  deltax := 0
  deltay := 0
  xpos := 0
  ypos := 0
  halign := HAlign.center
  valign := VAlign.center
  use_vertical_render := false
  want_shading := false
  color := 0
  outline_color := 0
  shading_value := 0
  wrap_mode := 0
  line_align := 0
  auto_adjust_size := false
  font_desc := ""

/-! ### The claims -/

/-- Claim C1: while the slot holds an item with valid timestamp and
duration giving running interval `[ts, te)`, the stale test `te ≤ vs`
is evaluated before the future test `ve ≤ ts`; on `te ≤ vs` the slot is
cleared and the loop retries against the same primary item without
emitting; otherwise on `ve ≤ ts` the primary item is emitted unmodified
and the slot is left intact, holding the same item. -/
theorem C1_stale_checked_before_future (s : OverlayState)
    (buffer tb : GstBuffer) (start stop clip_start vs ve ts te : Nat)
    (hvf : s.video_flushing = false) (hveos : s.video_eos = false)
    (hsil : s.silent = false) (hlink : s.text_linked = true)
    (hslot : s.text_buffer = some tb) (hvalid : valid_text_time tb)
    (hvs : gst_segment_to_running_time s.segment start = vs)
    (hve : gst_segment_to_running_time s.segment stop = ve)
    (hts : gst_segment_to_running_time s.text_segment tb.timestamp = ts)
    (hte : gst_segment_to_running_time s.text_segment
      (u64 (tb.timestamp + tb.duration)) = te) :
    (te ≤ vs →
      gst_base_text_overlay_video_chain_step s buffer start stop clip_start =
        .retryStale (gst_base_text_overlay_pop_text s) ∧
      (gst_base_text_overlay_pop_text s).text_buffer = none) ∧
    (¬ te ≤ vs → ve ≤ ts →
      gst_base_text_overlay_video_chain_step s buffer start stop clip_start =
        .emitted (set_position s clip_start) ∧
      (set_position s clip_start).text_buffer = some tb) := by
  constructor
  · intro hstale
    refine ⟨?_, rfl⟩
    unfold gst_base_text_overlay_video_chain_step
    simp [hvf, hveos, hsil, hlink, hslot, hvalid, hvs, hts, hte, hstale]
  · intro hnstale hfut
    refine ⟨?_, hslot⟩
    unfold gst_base_text_overlay_video_chain_step
    simp [hvf, hveos, hsil, hlink, hslot, hvalid, hvs, hve, hts, hte, hnstale, hfut]

/-- Witness for C1 at concrete inputs: a pending item `[0,10)` against
a primary item `[50,60)` is stale and popped with a retry. -/
theorem C1_witness :
    gst_base_text_overlay_video_chain_step
        { sBase with text_buffer := some ⟨0, 10, "a"⟩ } ⟨50, 10, "v"⟩ 50 60 50 =
      .retryStale (gst_base_text_overlay_pop_text
        { sBase with text_buffer := some ⟨0, 10, "a"⟩ }) ∧
    (gst_base_text_overlay_pop_text
        { sBase with text_buffer := some ⟨0, 10, "a"⟩ }).text_buffer = none :=
  (C1_stale_checked_before_future _ ⟨50, 10, "v"⟩ ⟨0, 10, "a"⟩ 50 60 50 50 60 0 10
    rfl rfl rfl rfl rfl (by decide) (by decide) (by decide) (by decide)
    (by decide)).1 (by decide)

/-- Claim C2: when the pending item has valid running interval `[ts, te)`
overlaps the primary interval `[vs, ve)` (neither stale nor future),
the scheduler renders and emits exactly one composited output for that
primary item, and afterwards the slot is empty iff `te ≤ ve` (when
`te > ve` the same item is retained for subsequent primary items). -/
theorem C2_overlap_one_composite (s : OverlayState)
    (buffer tb : GstBuffer) (start stop clip_start vs ve ts te : Nat)
    (hvf : s.video_flushing = false) (hveos : s.video_eos = false)
    (hsil : s.silent = false) (hlink : s.text_linked = true)
    (hslot : s.text_buffer = some tb) (hvalid : valid_text_time tb)
    (hvs : gst_segment_to_running_time s.segment start = vs)
    (hve : gst_segment_to_running_time s.segment stop = ve)
    (hts : gst_segment_to_running_time s.text_segment tb.timestamp = ts)
    (hte : gst_segment_to_running_time s.text_segment
      (u64 (tb.timestamp + tb.duration)) = te)
    (hnstale : ¬ te ≤ vs) (hnfut : ¬ ve ≤ ts) :
    isCompositedB
      (gst_base_text_overlay_video_chain_step s buffer start stop clip_start) = true ∧
    stepSlot
      (gst_base_text_overlay_video_chain_step s buffer start stop clip_start) =
      some (if te ≤ ve then none else some tb) := by
  unfold gst_base_text_overlay_video_chain_step
  simp only [hvf, hveos, hsil, hlink, hslot]
  simp [hvalid, hvs, hve, hts, hte, hnstale, hnfut, isCompositedB, stepSlot,
    set_position]
  by_cases hc : te ≤ ve
  · simp [hc, gst_base_text_overlay_pop_text]
  · simp [hc, render_from_text_buffer_text_buffer, hslot]

/-- Witness for C2 at concrete inputs: primary `[0,1000)`, pending item
`[500,700)`: one composited output, slot empty afterwards. -/
theorem C2_witness :
    isCompositedB
      (gst_base_text_overlay_video_chain_step
        { sBase with text_buffer := some ⟨500, 200, "a"⟩ } ⟨0, 1000, "v"⟩ 0 1000 0) = true ∧
    stepSlot
      (gst_base_text_overlay_video_chain_step
        { sBase with text_buffer := some ⟨500, 200, "a"⟩ } ⟨0, 1000, "v"⟩ 0 1000 0) =
      some (if (700 : Nat) ≤ 1000 then none else some ⟨500, 200, "a"⟩) :=
  C2_overlap_one_composite _ ⟨0, 1000, "v"⟩ ⟨500, 200, "a"⟩ 0 1000 0 0 1000 500 700
    rfl rfl rfl rfl rfl (by decide) (by decide) (by decide) (by decide) (by decide)
    (by decide) (by decide)

/-- Claim C3: the PendingSlot holds at most one item (it is an
`Option GstBuffer`): the push stores an in-segment item only when the
slot was observed empty, blocks in a wait loop while it is occupied
re-checking the secondary flushing flag after every wake (returning
Flushing when it is set), and on storing sets the dirty flag and
broadcasts. -/
theorem C3_slot_rendezvous :
    (∀ (s s2 : OverlayState) (wakes : List OverlayState),
      text_wait_loop s wakes = .free s2 → s2.text_buffer = none) ∧
    (∀ (s w : OverlayState) (rest : List OverlayState),
      s.text_buffer ≠ none → w.text_flushing = true →
      text_wait_loop s (w :: rest) = .flushed w) ∧
    (∀ (s : OverlayState) (b : GstBuffer) (wakes : List OverlayState)
      (s2 : OverlayState) (cs ct : Nat),
      s.text_flushing = false → s.text_eos = false →
      text_clip s.text_segment b = some (cs, ct) →
      text_wait_loop s wakes = .flushed s2 →
      (gst_base_text_overlay_text_chain s b wakes).1 = .flushingT s2) ∧
    (∀ (s : OverlayState) (b : GstBuffer) (wakes : List OverlayState)
      (s3 : OverlayState) (b1 : GstBuffer),
      (gst_base_text_overlay_text_chain s b wakes).1 = .okStored s3 b1 →
      s3.text_buffer = some b1 ∧ s3.need_render = true ∧
      (gst_base_text_overlay_text_chain s b wakes).2 = true ∧
      ∃ s2, text_wait_loop s wakes = .free s2 ∧ s2.text_buffer = none) := by
  refine ⟨?_, ?_, ?_, ?_⟩
  · exact fun s s2 wakes h => text_wait_loop_free h
  · intro s w rest hocc hfl
    unfold text_wait_loop
    simp [hocc, hfl]
  · intro s b wakes s2 cs ct hfl heos hclip hloop
    unfold gst_base_text_overlay_text_chain
    simp [hfl, heos, hclip, hloop]
  · intro s b wakes s3 b1 h
    obtain ⟨hfl, heos, s2, cs, ct, hclip, hloop, hb1, hs3, hbr⟩ :=
      text_chain_okStored_inv h
    subst hs3
    exact ⟨rfl, rfl, hbr, s2, hloop, text_wait_loop_free hloop⟩

/-- Witness for C3 at concrete inputs: an occupied slot plus a wake in
flushing state makes the wait loop, and the whole push, return
Flushing. -/
theorem C3_witness :
    text_wait_loop { sBase with text_buffer := some ⟨0, 1, "q"⟩ }
        [{ sBase with text_flushing := true }] =
      .flushed { sBase with text_flushing := true } ∧
    (gst_base_text_overlay_text_chain
        { sBase with text_buffer := some ⟨0, 1, "q"⟩ } ⟨2, 3, "r"⟩
        [{ sBase with text_flushing := true }]).1 =
      .flushingT { sBase with text_flushing := true } :=
  ⟨C3_slot_rendezvous.2.1 _ _ _ (by decide) (by decide),
   C3_slot_rendezvous.2.2.1 _ ⟨2, 3, "r"⟩ _ _ 2 5 (by decide) (by decide)
     (by decide) (by decide)⟩

/-- Claim C4 (amended): push returns Flushing whenever the secondary
flushing flag is set on entry and EndOfStream whenever the secondary
EOS flag is set (flushing checked first); it discards the item and
returns success without modifying the state exactly when
`gst_segment_clip` reports the interval of the item entirely outside the
secondary segment (a zero-length clipped interval that touches the
segment is stored, not discarded). -/
theorem C4_flushing_eos_discard (s : OverlayState) (b : GstBuffer)
    (wakes : List OverlayState) :
    (s.text_flushing = true →
      gst_base_text_overlay_text_chain s b wakes = (.flushingT s, false)) ∧
    (s.text_flushing = false → s.text_eos = true →
      gst_base_text_overlay_text_chain s b wakes = (.eosT s, false)) ∧
    (s.text_flushing = false → s.text_eos = false →
      text_clip s.text_segment b = none →
      gst_base_text_overlay_text_chain s b wakes = (.okDiscard s, false)) := by
  refine ⟨?_, ?_, ?_⟩
  · intro hfl
    unfold gst_base_text_overlay_text_chain
    simp [hfl]
  · intro hfl heos
    unfold gst_base_text_overlay_text_chain
    simp [hfl, heos]
  · intro hfl heos hclip
    unfold gst_base_text_overlay_text_chain
    simp [hfl, heos, hclip]

/-- Counterexample to C4 as stated: a zero-length in-segment item whose
clipped interval `[5,5)` is empty is stored, not discarded. -/
theorem C4_counterexample :
    text_clip sBase.text_segment ⟨5, 0, "x"⟩ = some (5, 5) ∧
    chainStored (gst_base_text_overlay_text_chain sBase ⟨5, 0, "x"⟩ []).1 =
      some ⟨5, 0, "x"⟩ ∧
    (gst_base_text_overlay_text_chain sBase ⟨5, 0, "x"⟩ []).1 ≠
      .okDiscard sBase := by
  exact ⟨by decide, by decide, by decide⟩

/-- Witness for C4 at concrete inputs: the three branches at concrete
states (flushing, EOS, and an item entirely before the segment). -/
theorem C4_witness :
    gst_base_text_overlay_text_chain { sBase with text_flushing := true }
        ⟨0, 1, "w"⟩ [] =
      (.flushingT { sBase with text_flushing := true }, false) ∧
    gst_base_text_overlay_text_chain { sBase with text_eos := true }
        ⟨0, 1, "w"⟩ [] =
      (.eosT { sBase with text_eos := true }, false) ∧
    gst_base_text_overlay_text_chain
        { sBase with text_segment := ⟨GstFormat.timeF, 100, 200, 0, 0⟩ }
        ⟨0, 50, "w"⟩ [] =
      (.okDiscard { sBase with text_segment := ⟨GstFormat.timeF, 100, 200, 0, 0⟩ },
        false) :=
  ⟨(C4_flushing_eos_discard _ ⟨0, 1, "w"⟩ []).1 rfl,
   (C4_flushing_eos_discard _ ⟨0, 1, "w"⟩ []).2.1 rfl rfl,
   (C4_flushing_eos_discard _ ⟨0, 50, "w"⟩ []).2.2 rfl rfl (by decide)⟩

/-- Claim C5 (amended): flush-start on a stream sets the flushing flag of that stream and broadcasts, so a thread blocked in the push wait loop
returns Flushing at its next wake and a scheduler re-entering its loop
with the primary flushing flag set returns Flushing; flush-stop on the
secondary stream clears its flags, empties the PendingSlot and resets
its segment; flush-stop on the primary stream clears its flags and
resets its segment but leaves the PendingSlot untouched. -/
theorem C5_flush_semantics :
    (∀ s : OverlayState, gst_base_text_overlay_text_event s .flushStartE =
      ({ s with text_flushing := true }, true)) ∧
    (∀ (s w : OverlayState) (rest : List OverlayState),
      s.text_buffer ≠ none → w.text_flushing = true →
      text_wait_loop s (w :: rest) = .flushed w) ∧
    (∀ s : OverlayState, gst_base_text_overlay_video_event s .flushStartE =
      ({ s with video_flushing := true }, true)) ∧
    (∀ (s : OverlayState) (buffer : GstBuffer) (start stop clip_start : Nat),
      s.video_flushing = true →
      gst_base_text_overlay_video_chain_step s buffer start stop clip_start =
        .flushingV) ∧
    (∀ s : OverlayState, gst_base_text_overlay_text_event s .flushStopE =
      ({ s with
          text_flushing := false
          text_eos := false
          text_buffer := none
          text_segment := gst_segment_init GstFormat.timeF }, true)) ∧
    (∀ s : OverlayState, gst_base_text_overlay_video_event s .flushStopE =
      ({ s with
          video_flushing := false
          video_eos := false
          segment := gst_segment_init GstFormat.timeF }, false)) := by
  refine ⟨fun s => rfl, ?_, fun s => rfl, ?_, fun s => rfl, fun s => rfl⟩
  · intro s w rest hocc hfl
    unfold text_wait_loop
    simp [hocc, hfl]
  · intro s buffer start stop clip_start hfl
    unfold gst_base_text_overlay_video_chain_step
    simp [hfl]

/-- Counterexample to C5 as stated: flush-stop on the primary stream
clears its flags but leaves the PendingSlot occupied. -/
theorem C5_counterexample :
    ((gst_base_text_overlay_video_event
        { sBase with text_buffer := some ⟨1, 2, "x"⟩, video_flushing := true }
        .flushStopE).1).video_flushing = false ∧
    ((gst_base_text_overlay_video_event
        { sBase with text_buffer := some ⟨1, 2, "x"⟩, video_flushing := true }
        .flushStopE).1).text_buffer = some ⟨1, 2, "x"⟩ :=
  ⟨rfl, rfl⟩

/-- Witness for C5 at concrete inputs: a scheduler loop iteration under
primary flushing returns Flushing; a producer wake in flushing state
returns Flushing. -/
theorem C5_witness :
    gst_base_text_overlay_video_chain_step { sBase with video_flushing := true }
        ⟨0, 1, "v"⟩ 0 1 0 = .flushingV ∧
    text_wait_loop { sBase with text_buffer := some ⟨0, 1, "x"⟩ }
        [{ sBase with text_flushing := true }] =
      .flushed { sBase with text_flushing := true } :=
  ⟨C5_flush_semantics.2.2.2.1 _ ⟨0, 1, "v"⟩ 0 1 0 rfl,
   C5_flush_semantics.2.1 _ _ _ (by decide) (by decide)⟩

/-- Claim C6 (amended): with the secondary stream connected and the
slot empty, the scheduler emits the primary item unmodified without
blocking iff secondary-EOS is set, or the wait-for-secondary flag is
disabled, or the secondary segment (in TIME format) has a start or
position whose running time is known to exceed the running time of the
primary item timestamp (`vs`, not `ve` as the claim states); in
every other case it blocks until a wake and re-enters the loop. -/
theorem C6_empty_slot_wait (s : OverlayState) (buffer : GstBuffer)
    (start stop clip_start : Nat)
    (hvf : s.video_flushing = false) (hveos : s.video_eos = false)
    (hsil : s.silent = false) (hlink : s.text_linked = true)
    (hslot : s.text_buffer = none) :
    (¬ video_wait_for_text s buffer →
      gst_base_text_overlay_video_chain_step s buffer start stop clip_start =
        .emitted (set_position s clip_start)) ∧
    (video_wait_for_text s buffer →
      gst_base_text_overlay_video_chain_step s buffer start stop clip_start =
        .waitText s) := by
  constructor
  · intro hnw
    unfold gst_base_text_overlay_video_chain_step
    simp [hvf, hveos, hsil, hlink, hslot, hnw]
  · intro hw
    unfold gst_base_text_overlay_video_chain_step
    simp [hvf, hveos, hsil, hlink, hslot, hw]

/-- The concrete state of the counterexample to C6: the secondary
segment position running time (500) exceeds the primary start running
time (0) but not the primary end running time (1000). -/
def sC6 : OverlayState :=
  { sBase with text_segment := ⟨GstFormat.timeF, 0, NONE, 500, 0⟩ }

/-- Counterexample to C6 as stated: with primary running interval
`[0, 1000)`, no secondary EOS, waiting enabled, and no segment running
time exceeding `ve = 1000`, the claim requires the scheduler to block;
the code emits the primary item unmodified because the secondary
position running time 500 exceeds `vs = 0`. -/
theorem C6_counterexample :
    gst_segment_to_running_time sC6.segment 1000 = 1000 ∧
    gst_base_text_overlay_video_chain_step sC6 ⟨0, 1000, "v"⟩ 0 1000 0 =
      .emitted (set_position sC6 0) ∧
    ¬ (sC6.text_eos = true ∨ sC6.wait_text = false ∨
       (gst_segment_to_running_time sC6.text_segment sC6.text_segment.start ≠ NONE ∧
        1000 < gst_segment_to_running_time sC6.text_segment sC6.text_segment.start) ∨
       (gst_segment_to_running_time sC6.text_segment sC6.text_segment.position ≠ NONE ∧
        1000 < gst_segment_to_running_time sC6.text_segment
          sC6.text_segment.position)) := by
  exact ⟨by decide, by decide, by decide⟩

/-- Witness for C6 at concrete inputs: waiting disabled emits without
blocking; the base state (empty TIME segments, waiting enabled) blocks. -/
theorem C6_witness :
    gst_base_text_overlay_video_chain_step { sBase with wait_text := false }
        ⟨0, 1, "v"⟩ 0 1 0 =
      .emitted (set_position { sBase with wait_text := false } 0) ∧
    gst_base_text_overlay_video_chain_step sBase ⟨0, 1, "v"⟩ 0 1 0 =
      .waitText sBase :=
  ⟨(C6_empty_slot_wait _ ⟨0, 1, "v"⟩ 0 1 0 rfl rfl rfl rfl rfl).1 (by decide),
   (C6_empty_slot_wait sBase ⟨0, 1, "v"⟩ 0 1 0 rfl rfl rfl rfl rfl).2 (by decide)⟩

/-- Claim C7 (amended): a successful push of an item with a valid
timestamp stores it with its timestamp replaced by the clipped start;
the stored duration is the original duration of the item, unchanged (the
duration is rewritten to the clipped length only when the timestamp is
invalid). -/
theorem C7_clip_rewrites_timestamp_only (s : OverlayState) (b : GstBuffer)
    (wakes : List OverlayState) (s3 : OverlayState) (b1 : GstBuffer)
    (cs ct : Nat)
    (hts : b.timestamp ≠ NONE)
    (hclip : text_clip s.text_segment b = some (cs, ct))
    (hout : (gst_base_text_overlay_text_chain s b wakes).1 = .okStored s3 b1) :
    b1.timestamp = cs ∧ b1.duration = b.duration ∧ b1.payload = b.payload := by
  obtain ⟨_, _, s2, cs2, ct2, hclip2, _, hb1, _, _⟩ := text_chain_okStored_inv hout
  rw [hclip] at hclip2
  injection hclip2 with hpair
  injection hpair with hcs hct
  subst hcs
  subst hct
  subst hb1
  unfold clipped_text_buffer
  simp [hts]

/-- The concrete state of the counterexample to C7: secondary segment
`[10, 20)`. -/
def sC7 : OverlayState :=
  { sBase with text_segment := ⟨GstFormat.timeF, 10, 20, 0, 0⟩ }

/-- Counterexample to C7 as stated: item `[5, 15)` clips to `[10, 15)`,
so the claim requires a stored duration of `15 - 10 = 5`; the code
stores timestamp 10 with the original duration 10 unchanged. -/
theorem C7_counterexample :
    gst_segment_clip sC7.text_segment 5 15 = some (10, 15) ∧
    chainStored (gst_base_text_overlay_text_chain sC7 ⟨5, 10, "t"⟩ []).1 =
      some ⟨10, 10, "t"⟩ ∧
    (15 : Nat) - 10 ≠ 10 := by
  exact ⟨by decide, by decide, by decide⟩

/-- Witness for C7 at concrete inputs: the stored buffer for item
`[5, 15)` against segment `[10, 20)` has timestamp 10, duration 10 and
the original payload. -/
theorem C7_witness :
    (clipped_text_buffer ⟨5, 10, "t"⟩ 10 15).timestamp = 10 ∧
    (clipped_text_buffer ⟨5, 10, "t"⟩ 10 15).duration = 10 ∧
    (clipped_text_buffer ⟨5, 10, "t"⟩ 10 15).payload = "t" :=
  C7_clip_rewrites_timestamp_only sC7 ⟨5, 10, "t"⟩ []
    (store_text_buffer sC7 (clipped_text_buffer ⟨5, 10, "t"⟩ 10 15) 10)
    (clipped_text_buffer ⟨5, 10, "t"⟩ 10 15) 10 15
    (by decide) (by decide) (by decide)

/-- Claim C8: the dirty flag is set by every property write and by
storing a new secondary item, and cleared by a render; while it is
clear, `gst_base_text_overlay_render_text` returns the state unchanged
(keeping the previously rendered image) without invoking the
rasterizer. -/
theorem C8_dirty_flag :
    (∀ (s : OverlayState) (p : GstProp),
      (gst_base_text_overlay_set_property s p).need_render = true) ∧
    (∀ (s : OverlayState) (b : GstBuffer) (wakes : List OverlayState)
      (s3 : OverlayState) (b1 : GstBuffer),
      (gst_base_text_overlay_text_chain s b wakes).1 = .okStored s3 b1 →
      s3.need_render = true) ∧
    (∀ (s : OverlayState) (t : String) (l : Int), s.need_render = false →
      gst_base_text_overlay_render_text s t l = (s, false)) ∧
    (∀ (s : OverlayState) (t : String) (l : Int),
      ((gst_base_text_overlay_render_text s t l).1).need_render = false) := by
  refine ⟨?_, ?_, ?_, ?_⟩
  · intro s p
    cases p <;> rfl
  · intro s b wakes s3 b1 h
    obtain ⟨_, _, s2, cs, ct, _, _, _, hs3, _⟩ := text_chain_okStored_inv h
    subst hs3
    rfl
  · intro s t l hnr
    unfold gst_base_text_overlay_render_text
    simp [hnr]
  · intro s t l
    unfold gst_base_text_overlay_render_text
    split <;> simp_all

/-- Witness for C8 at concrete inputs: with the dirty flag clear the
render call returns the state unchanged and does not rasterize. -/
theorem C8_witness :
    gst_base_text_overlay_render_text { sBase with need_render := false }
        "hello" (-1) =
      ({ sBase with need_render := false }, false) :=
  C8_dirty_flag.2.2.1 _ "hello" (-1) rfl

lemma cCLAMP_bounds {x lo hi : Int} (h : lo ≤ hi) :
    lo ≤ cCLAMP x lo hi ∧ cCLAMP x lo hi ≤ hi := by
  unfold cCLAMP
  split
  · exact ⟨h, le_refl hi⟩
  · split
    · exact ⟨le_refl lo, h⟩
    · omega

/-- Claim C9 (amended): only the positional alignment modes clamp, and
they keep the pre-delta coordinate within frame bounds whenever the
image fits in the frame; the other modes apply their pad / centering
formula without clamping and can leave the frame; the delta offset is
added after the per-axis switch. -/
theorem C9_pos_mode_clamped (s : OverlayState) :
    ((s.use_vertical_render = false → s.halign = HAlign.pos →
      0 ≤ s.image_width → s.image_width ≤ s.width →
      0 ≤ get_pos_x s ∧ get_pos_x s + s.image_width ≤ s.width) ∧
     (s.use_vertical_render = false → s.valign = VAlign.pos →
      0 ≤ s.image_height → s.image_height ≤ s.height →
      0 ≤ get_pos_y s ∧ get_pos_y s + s.image_height ≤ s.height)) ∧
    gst_base_text_overlay_get_pos s =
      (get_pos_x s + s.deltax, get_pos_y s + s.deltay) := by
  refine ⟨⟨?_, ?_⟩, rfl⟩
  · intro hv hh h0 hfit
    unfold get_pos_x
    simp only [hv, hh]
    have hb := @cCLAMP_bounds
      (truncD ((s.width : Rat) * s.xpos) - Int.tdiv s.image_width 2)
      0 (s.width - s.image_width) (by omega)
    simp only [Bool.false_eq_true, if_false]
    split <;> omega
  · intro hv hh h0 hfit
    unfold get_pos_y
    simp only [hv, hh]
    have hb := @cCLAMP_bounds
      (truncD ((s.height : Rat) * s.ypos) - Int.tdiv s.image_height 2)
      0 (s.height - s.image_height) (by omega)
    simp only [Bool.false_eq_true, if_false]
    omega

/-- The concrete state of the counterexample to C9: left alignment with
a 200-pixel pad in a 100-pixel frame. -/
def sC9 : OverlayState := { sBase with halign := HAlign.left, xpad := 200 }

/-- Counterexample to C9 as stated: with left alignment, `xpad = 200`,
frame width 100 and image width 50 (and zero delta), the placed image
ends at 250, beyond the frame: non-positional modes do not clamp. -/
theorem C9_counterexample :
    sC9.deltax = 0 ∧
    (gst_base_text_overlay_get_pos sC9).1 + sC9.image_width > sC9.width := by
  exact ⟨by decide, by decide⟩

/-- The concrete state of the C9 witness: positional alignment on both
axes at fraction 1/2. -/
def sC9w : OverlayState :=
  { sBase with
      halign := HAlign.pos
      valign := VAlign.pos
      xpos := (1 : Rat)/2
      ypos := (1 : Rat)/2 }

/-- Witness for C9 at concrete inputs: positional placement at fraction
1/2 in a 100-pixel frame with a 50-pixel image stays within bounds. -/
theorem C9_witness :
    (0 ≤ get_pos_x sC9w ∧ get_pos_x sC9w + sC9w.image_width ≤ sC9w.width) ∧
    (0 ≤ get_pos_y sC9w ∧ get_pos_y sC9w + sC9w.image_height ≤ sC9w.height) ∧
    gst_base_text_overlay_get_pos sC9w =
      (get_pos_x sC9w + sC9w.deltax, get_pos_y sC9w + sC9w.deltay) :=
  ⟨(C9_pos_mode_clamped sC9w).1.1 rfl rfl (by decide) (by decide),
   (C9_pos_mode_clamped sC9w).1.2 rfl rfl (by decide) (by decide),
   (C9_pos_mode_clamped sC9w).2⟩

/-- Claim C10: a secondary item with invalid (absent) timestamp is
never clipped against the secondary segment (`text_clip` yields the
initial `(0, 0)` without consulting `gst_segment_clip`) and never
discarded as out-of-segment; push stores it subject only to the
flushing / EOS checks and the blocking wait, after which the scheduler
composites it onto exactly one primary item and clears the slot. -/
theorem C10_invalid_timestamp_applied_once :
    (∀ (s : OverlayState) (b : GstBuffer) (wakes : List OverlayState),
      s.text_flushing = false → s.text_eos = false → b.timestamp = NONE →
      text_clip s.text_segment b = some (0, 0) ∧
      (gst_base_text_overlay_text_chain s b wakes).1 ≠ .okDiscard s ∧
      (s.text_buffer = none → wakes = [] →
        (gst_base_text_overlay_text_chain s b wakes).1 =
          .okStored (store_text_buffer s (clipped_text_buffer b 0 0) 0)
            (clipped_text_buffer b 0 0) ∧
        (store_text_buffer s (clipped_text_buffer b 0 0) 0).text_buffer =
          some (clipped_text_buffer b 0 0))) ∧
    (∀ (s : OverlayState) (buffer tb : GstBuffer) (start stop clip_start : Nat),
      s.video_flushing = false → s.video_eos = false → s.silent = false →
      s.text_linked = true → s.text_buffer = some tb → tb.timestamp = NONE →
      gst_base_text_overlay_video_chain_step s buffer start stop clip_start =
        .composited (set_position
          (gst_base_text_overlay_pop_text (render_from_text_buffer s tb))
          clip_start) ∧
      (set_position (gst_base_text_overlay_pop_text (render_from_text_buffer s tb))
        clip_start).text_buffer = none) := by
  constructor
  · intro s b wakes hfl heos htsN
    have hclip : text_clip s.text_segment b = some (0, 0) := by
      unfold text_clip
      simp [htsN]
    refine ⟨hclip, ?_, ?_⟩
    · unfold gst_base_text_overlay_text_chain
      rcases hloop : text_wait_loop s wakes with s2 | s2 | _ <;>
        simp [hfl, heos, hclip, hloop]
    · intro hslot hwakes
      subst hwakes
      refine ⟨?_, rfl⟩
      unfold gst_base_text_overlay_text_chain
      have hloop : text_wait_loop s [] = .free s := by
        unfold text_wait_loop
        simp [hslot]
      simp [hfl, heos, hclip, hloop]
  · intro s buffer tb start stop clip_start hvf hveos hsil hlink hslot htsN
    have hnv : ¬ valid_text_time tb := fun h => h.1 htsN
    constructor
    · unfold gst_base_text_overlay_video_chain_step
      simp [hvf, hveos, hsil, hlink, hslot, hnv]
    · rfl

/-- Witness for C10 at concrete inputs: an item with invalid timestamp
is stored by the push into an empty slot, and a scheduler iteration
with it in the slot composites once and clears the slot. -/
theorem C10_witness :
    (gst_base_text_overlay_text_chain sBase ⟨NONE, 7, "n"⟩ []).1 =
      .okStored (store_text_buffer sBase (clipped_text_buffer ⟨NONE, 7, "n"⟩ 0 0) 0)
        (clipped_text_buffer ⟨NONE, 7, "n"⟩ 0 0) ∧
    gst_base_text_overlay_video_chain_step
        { sBase with text_buffer := some ⟨NONE, 7, "n"⟩ } ⟨0, 1, "v"⟩ 0 1 0 =
      .composited (set_position (gst_base_text_overlay_pop_text
        (render_from_text_buffer { sBase with text_buffer := some ⟨NONE, 7, "n"⟩ }
          ⟨NONE, 7, "n"⟩)) 0) :=
  ⟨((C10_invalid_timestamp_applied_once.1 sBase ⟨NONE, 7, "n"⟩ [] rfl rfl
      rfl).2.2 rfl rfl).1,
   (C10_invalid_timestamp_applied_once.2 _ ⟨0, 1, "v"⟩ ⟨NONE, 7, "n"⟩ 0 1 0
      rfl rfl rfl rfl rfl rfl).1⟩

end GstTextOverlay
